import Mathlib

/-!
Shallow embedding of the AI provider layer of the lifecompass-ai backend:
`lifecompass-ai-backend/ai_providers.py` (the `AIResponse` dataclass, the six
concrete provider classes and `AIProviderManager`) and the `/api/chat`
handler `chat_with_ai` of `lifecompass-ai-backend/main.py`.

External effects are modelled as explicit parameters fixed for the process
lifetime: an outbound HTTP request's result is a `RequestOutcome` value, the
environment is a function from variable names to optional string values, and
the whole external world seen by the providers is a `NetOracle`.  JSON
payloads are modelled by `JsonVal`.  Python being dynamically typed, the
`text` slot of a response holds whatever JSON value the payload carried at
the text position — including `null` — so it is modelled as a raw `JsonVal`,
and the f-string interpolation the chat handler performs on it is modelled
by `pyStr`.
-/

namespace LifeCompass

/-- Python truthiness of an optional string: `None` and `""` are falsy. -/
def pyTruthy : Option String → Bool
  | none => false
  | some s => s != ""

/-- Python `str()` of an optional string: `None` renders as `"None"`
(as in the f-string `f"AI service error: {ai_response.error}"`). -/
def pyStrOpt : Option String → String
  | some s => s
  | none => "None"

/-- `os.getenv(key, default)`: the value when the variable is set (even to
the empty string), else the default. -/
def getenvD (env : String → Option String) (key dflt : String) : String :=
  (env key).getD dflt

/-- Python whitespace (the characters `str.strip()` removes). -/
def pyIsSpace (c : Char) : Bool :=
  c == ' ' || c == '\t' || c == '\n' || c == '\r' || c == '\x0b' || c == '\x0c'

/-- Python `str.strip()`: whitespace removed from both ends (written on the
character list so it evaluates by kernel reduction). -/
def pyStrip (s : String) : String :=
  ⟨((s.data.dropWhile pyIsSpace).reverse.dropWhile pyIsSpace).reverse⟩

/-- Python `str.rstrip("/")` as used on the Ollama base URL. -/
def pyRstripSlash (s : String) : String :=
  ⟨(s.data.reverse.dropWhile (fun c => c == '/')).reverse⟩

/-- Python `str.startswith`. -/
def pyStartsWith (s pre : String) : Bool :=
  List.isPrefixOf pre.data s.data

/-- Python slicing `s[n:]` (by characters). -/
def pyDropChars (s : String) (n : Nat) : String :=
  ⟨s.data.drop n⟩

/-- Minimal JSON value model for provider response bodies. -/
inductive JsonVal where
  | str (s : String)
  | num (n : Int)
  | bool (b : Bool)
  | null
  | arr (xs : List JsonVal)
  | obj (fields : List (String × JsonVal))

/-- `j[k]` on an object; `none` models the raised `KeyError`/`TypeError`. -/
def JsonVal.getField : JsonVal → String → Option JsonVal
  | .obj fs, k => fs.lookup k
  | _, _ => none

/-- `j[i]` on an array; `none` models the raised `IndexError`/`TypeError`. -/
def JsonVal.getIdx : JsonVal → Nat → Option JsonVal
  | .arr xs, i => xs.get? i
  | _, _ => none

/-- Python `str()` of a JSON value, as the chat handler's f-string applies
it to a response text.  Scalar renderings are exact (`None`, `True`,
integer digits, the string itself); containers are abbreviated to a
placeholder — no adapter hands a container to this function in any claim,
and no claim evaluates it there. -/
def pyStr : JsonVal → String
  | .str s => s
  | .num n => toString n
  | .bool true => "True"
  | .bool false => "False"
  | .null => "None"
  | .arr _ => "<list>"
  | .obj _ => "<dict>"

/-- The observable part of an HTTP response: `status_code`, the raw body
`text`, and the result of `.json()` (`Except.error` = the decode raises). -/
structure HTTPResponse where
  status_code : Nat
  text : String
  jsonBody : Except String JsonVal

/-- Outcome of one outbound request: a response, or a raised exception
(network failure, timeout) carrying its message. -/
inductive RequestOutcome where
  | resp (r : HTTPResponse)
  | raise (msg : String)

/-- The `AIResponse` dataclass (`ai_providers.py` lines 13-20): the
standardized response format.  `text` is a required (always set) field
annotated `str`, but the annotation is not enforced: adapters store the raw
payload value there, which can be `null` or any other JSON value — so it is
modelled as `JsonVal` (`JsonVal.str s` in the ordinary case, `JsonVal.null`
for Python `None`).  `error`, `provider` and `usage` default to `None`. -/
structure AIResponse where
  success : Bool
  text : JsonVal
  error : Option String := none
  provider : Option String := none
  usage : Option JsonVal := none

/-- The failure shape every adapter builds:
`AIResponse(success=False, text="", error=..., provider=name)`. -/
def failResp (err name : String) : AIResponse :=
  { success := false, text := JsonVal.str "", error := some err, provider := some name }

/-- `bool(self.api_key and self.api_key.strip())` shared by the key-based
providers (`is_configured` of Gemini, OpenAI, Anthropic, Hugging Face and
OpenRouter). -/
def key_is_configured (api_key : String) : Bool :=
  api_key != "" && pyStrip api_key != ""

/-- `GoogleGeminiProvider.generate_response`.  `clientOk` is whether
`self._client` is set (the key configured and the library import and model
construction succeeded); `call` is the outcome of
`self._client.generate_content(prompt)`: `.ok` the response text, `.error` a
raised exception's message. -/
def gemini_generate_response (clientOk : Bool) (call : Except String String) : AIResponse :=
  if clientOk then
    match call with
    | .ok t => { success := true, text := JsonVal.str t, provider := some "Google Gemini" }
    | .error e => failResp ("Google Gemini error: " ++ e) "Google Gemini"
  else
    failResp "Google Gemini not properly configured" "Google Gemini"

/-- `result["choices"][0]["message"]["content"]` (OpenAI and OpenRouter
response shape); `none` models the raised subscript error
(`KeyError`/`IndexError`/`TypeError`) the adapter catches.  The leaf value
itself is returned raw, of whatever JSON type the backend sent. -/
def extract_chat_content (j : JsonVal) : Option JsonVal := do
  let choices ← j.getField "choices"
  let c0 ← choices.getIdx 0
  let msg ← c0.getField "message"
  msg.getField "content"

/-- `OpenAIProvider.generate_response` as a function of the request outcome.
`name` is `self.provider_name`.  Not configured short-circuits before any
request; a non-200 status or a raised exception (network, timeout, JSON
decode, field extraction) becomes a caught failure. -/
def openai_generate_response (api_key name : String) (out : RequestOutcome) : AIResponse :=
  if !(key_is_configured api_key) then failResp "OpenAI API key not configured" name
  else
    match out with
    | .raise e => failResp ("OpenAI error: " ++ e) name
    | .resp r =>
      if r.status_code == 200 then
        match r.jsonBody with
        | .error e => failResp ("OpenAI error: " ++ e) name
        | .ok j =>
          match extract_chat_content j with
          | some t => { success := true, text := t, provider := some name, usage := j.getField "usage" }
          | none => failResp "OpenAI error: KeyError" name
      else
        failResp ("OpenAI API error: " ++ toString r.status_code ++ " - " ++ r.text) name

/-- `result["content"][0]["text"]` (Anthropic response shape); the leaf is
returned raw, `none` modelling a raised subscript error. -/
def extract_anthropic_content (j : JsonVal) : Option JsonVal := do
  let content ← j.getField "content"
  let c0 ← content.getIdx 0
  c0.getField "text"

/-- `AnthropicProvider.generate_response` as a function of the request
outcome; same structure as the OpenAI adapter with Anthropic's field path
and messages. -/
def anthropic_generate_response (api_key name : String) (out : RequestOutcome) : AIResponse :=
  if !(key_is_configured api_key) then failResp "Anthropic API key not configured" name
  else
    match out with
    | .raise e => failResp ("Anthropic error: " ++ e) name
    | .resp r =>
      if r.status_code == 200 then
        match r.jsonBody with
        | .error e => failResp ("Anthropic error: " ++ e) name
        | .ok j =>
          match extract_anthropic_content j with
          | some t => { success := true, text := t, provider := some name, usage := j.getField "usage" }
          | none => failResp "Anthropic error: KeyError" name
      else
        failResp ("Anthropic API error: " ++ toString r.status_code ++ " - " ++ r.text) name

/-- `HuggingFaceProvider.generate_response`.  On 200 the body must be a
non-empty JSON array; `result[0].get("generated_text", "")` on a non-object
head raises (caught); a missing key defaults to `""`, and a non-string value
makes the subsequent `text.startswith(prompt)` raise `AttributeError`
(caught into a failure); a string value has the original prompt, when a
prefix, stripped and the remainder trimmed. -/
def huggingface_generate_response (api_key name prompt : String) (out : RequestOutcome) : AIResponse :=
  if !(key_is_configured api_key) then failResp "Hugging Face API key not configured" name
  else
    match out with
    | .raise e => failResp ("Hugging Face error: " ++ e) name
    | .resp r =>
      if r.status_code == 200 then
        match r.jsonBody with
        | .error e => failResp ("Hugging Face error: " ++ e) name
        | .ok (.arr (x :: _)) =>
          match x with
          | .obj fs =>
            match (fs.lookup "generated_text").getD (JsonVal.str "") with
            | .str s =>
              let text1 :=
                if pyStartsWith s prompt then pyStrip (pyDropChars s prompt.data.length)
                else s
              { success := true, text := JsonVal.str text1, provider := some name }
            | _ => failResp "Hugging Face error: AttributeError" name
          | _ => failResp "Hugging Face error: AttributeError" name
        | .ok _ => failResp "Unexpected response format from Hugging Face" name
      else
        failResp ("Hugging Face API error: " ++ toString r.status_code ++ " - " ++ r.text) name

/-- `OpenRouterProvider.generate_response`.  On 200,
`"choices" in result and len(result["choices"]) > 0` guards the extraction;
a `choices` field that is not a list makes the guard raise (caught); a body
with no `choices` field (or not an object) falls to the
"No response content" failure. -/
def openrouter_generate_response (api_key name : String) (out : RequestOutcome) : AIResponse :=
  if !(key_is_configured api_key) then failResp "OpenRouter API key not configured" name
  else
    match out with
    | .raise e => failResp ("OpenRouter error: " ++ e) name
    | .resp r =>
      if r.status_code == 200 then
        match r.jsonBody with
        | .error e => failResp ("OpenRouter error: " ++ e) name
        | .ok j =>
          match j.getField "choices" with
          | some (.arr (_ :: _)) =>
            match extract_chat_content j with
            | some t => { success := true, text := t, provider := some name, usage := j.getField "usage" }
            | none => failResp "OpenRouter error: KeyError" name
          | some (.arr []) => failResp "No response content from OpenRouter" name
          | some _ => failResp "OpenRouter error: TypeError" name
          | none => failResp "No response content from OpenRouter" name
      else
        failResp ("OpenRouter API error: " ++ toString r.status_code ++ " - " ++ r.text) name

/-- `OllamaProvider.generate_response`: no configuration check before the
request; on 200, `result.get("response", "")` is the text — the raw value,
possibly `null`, with a missing key defaulting to `""`; a non-object body
makes `.get` raise (caught into a failure). -/
def ollama_generate_response (name : String) (out : RequestOutcome) : AIResponse :=
  match out with
  | .raise e => failResp ("Ollama error: " ++ e ++ ". Make sure Ollama is running locally.") name
  | .resp r =>
    if r.status_code == 200 then
      match r.jsonBody with
      | .error e => failResp ("Ollama error: " ++ e ++ ". Make sure Ollama is running locally.") name
      | .ok (.obj fs) =>
        { success := true, text := (fs.lookup "response").getD (JsonVal.str ""),
          provider := some name }
      | .ok _ => failResp "Ollama error: AttributeError. Make sure Ollama is running locally." name
    else
      failResp ("Ollama API error: " ++ toString r.status_code ++ " - " ++ r.text) name

/-- `OllamaProvider.is_configured`: a GET probe of `{base_url}/api/tags`;
true iff it returned status 200, false when the probe raises (server
unreachable, timeout). -/
def ollama_is_configured (probe : RequestOutcome) : Bool :=
  match probe with
  | .resp r => r.status_code == 200
  | .raise _ => false

/-- A provider instance as the registry holds it: `provider_name`,
`is_configured()` (deterministic for the process lifetime in this model) and
`generate_response` with its world interaction already applied. -/
structure Provider where
  name : String
  configured : Bool
  generate : String → AIResponse

/-- The external world the providers see, fixed for the process lifetime:
per-family request outcomes as functions of the prompt, the Gemini client
construction result, and the Ollama reachability probe. -/
structure NetOracle where
  geminiInitOk : Bool
  geminiCall : String → Except String String
  openaiCall : String → RequestOutcome
  anthropicCall : String → RequestOutcome
  huggingfaceCall : String → RequestOutcome
  openrouterCall : String → RequestOutcome
  ollamaCall : String → RequestOutcome
  ollamaProbe : RequestOutcome

/-- The `GoogleGeminiProvider` instance built by `_load_providers` (the
model name only parameterizes the client held inside the oracle). -/
def googleProvider (api_key _model : String) (net : NetOracle) : Provider :=
  { name := "Google Gemini",
    configured := key_is_configured api_key,
    generate := fun prompt =>
      gemini_generate_response (key_is_configured api_key && net.geminiInitOk)
        (net.geminiCall prompt) }

/-- The `OpenAIProvider` instance built by `_load_providers`. -/
def openaiProvider (api_key model : String) (net : NetOracle) : Provider :=
  { name := "OpenAI (" ++ model ++ ")",
    configured := key_is_configured api_key,
    generate := fun prompt =>
      openai_generate_response api_key ("OpenAI (" ++ model ++ ")") (net.openaiCall prompt) }

/-- The `AnthropicProvider` instance built by `_load_providers`. -/
def anthropicProvider (api_key model : String) (net : NetOracle) : Provider :=
  { name := "Anthropic (" ++ model ++ ")",
    configured := key_is_configured api_key,
    generate := fun prompt =>
      anthropic_generate_response api_key ("Anthropic (" ++ model ++ ")")
        (net.anthropicCall prompt) }

/-- The `HuggingFaceProvider` instance built by `_load_providers`. -/
def huggingfaceProvider (api_key model : String) (net : NetOracle) : Provider :=
  { name := "Hugging Face (" ++ model ++ ")",
    configured := key_is_configured api_key,
    generate := fun prompt =>
      huggingface_generate_response api_key ("Hugging Face (" ++ model ++ ")") prompt
        (net.huggingfaceCall prompt) }

/-- The `OpenRouterProvider` instance built by `_load_providers`. -/
def openrouterProvider (api_key model : String) (net : NetOracle) : Provider :=
  { name := "OpenRouter (" ++ model ++ ")",
    configured := key_is_configured api_key,
    generate := fun prompt =>
      openrouter_generate_response api_key ("OpenRouter (" ++ model ++ ")")
        (net.openrouterCall prompt) }

/-- The `OllamaProvider` instance built by `_load_providers` (`base_url` is
kept for fidelity to the constructor; only the oracle outcomes matter). -/
def ollamaProvider (model _base_url : String) (net : NetOracle) : Provider :=
  { name := "Ollama (" ++ model ++ ")",
    configured := ollama_is_configured net.ollamaProbe,
    generate := fun prompt =>
      ollama_generate_response ("Ollama (" ++ model ++ ")") (net.ollamaCall prompt) }

/-- The relevant process environment: `os.getenv` with `none` for an unset
variable. -/
structure Env where
  getenv : String → Option String

/-- `AIProviderManager._load_providers`: the `providers` dict (an
insertion-ordered association list) built from the environment.  Each block
mirrors one `if os.getenv(KEY):` guard; the Ollama instance is added exactly
when its reachability probe succeeds. -/
def load_providers (env : Env) (net : NetOracle) : List (String × Provider) :=
  (if pyTruthy (env.getenv "GOOGLE_API_KEY") then
    [("google", googleProvider ((env.getenv "GOOGLE_API_KEY").getD "")
        (getenvD env.getenv "GOOGLE_MODEL" "gemini-1.5-flash") net)]
   else []) ++
  (if pyTruthy (env.getenv "OPENAI_API_KEY") then
    [("openai", openaiProvider ((env.getenv "OPENAI_API_KEY").getD "")
        (getenvD env.getenv "OPENAI_MODEL" "gpt-3.5-turbo") net)]
   else []) ++
  (if pyTruthy (env.getenv "ANTHROPIC_API_KEY") then
    [("anthropic", anthropicProvider ((env.getenv "ANTHROPIC_API_KEY").getD "")
        (getenvD env.getenv "ANTHROPIC_MODEL" "claude-3-sonnet-20240229") net)]
   else []) ++
  (if pyTruthy (env.getenv "HUGGINGFACE_API_KEY") then
    [("huggingface", huggingfaceProvider ((env.getenv "HUGGINGFACE_API_KEY").getD "")
        (getenvD env.getenv "HUGGINGFACE_MODEL" "microsoft/DialoGPT-medium") net)]
   else []) ++
  (if pyTruthy (env.getenv "OPENROUTER_API_KEY") then
    [("openrouter", openrouterProvider ((env.getenv "OPENROUTER_API_KEY").getD "")
        (getenvD env.getenv "OPENROUTER_MODEL" "google/gemini-flash-1.5") net)]
   else []) ++
  (let op := ollamaProvider (getenvD env.getenv "OLLAMA_MODEL" "llama2")
      (pyRstripSlash (getenvD env.getenv "OLLAMA_URL" "http://localhost:11434")) net
   if op.configured then [("ollama", op)] else [])

/-- `AIProviderManager._get_first_available_provider`: the first entry of the
dict whose `is_configured()` holds. -/
def get_first_available_provider (providers : List (String × Provider)) : Option String :=
  (providers.find? (fun pr => pr.2.configured)).map (fun pr => pr.1)

/-- `AIProviderManager` state: the `providers` dict and `primary_provider`. -/
structure AIProviderManager where
  providers : List (String × Provider)
  primary_provider : Option String

/-- `AIProviderManager.__init__`/`_load_providers`: the state after
initialization.  `primary_provider` is
`os.getenv("PRIMARY_AI_PROVIDER", self._get_first_available_provider())`:
the override verbatim when the variable is set, else the first configured
provider (possibly none). -/
def AIProviderManager.fromEnv (env : Env) (net : NetOracle) : AIProviderManager :=
  let providers := load_providers env net
  { providers := providers,
    primary_provider :=
      match env.getenv "PRIMARY_AI_PROVIDER" with
      | some v => some v
      | none => get_first_available_provider providers }

/-- The `elif`/`else` tail of `AIProviderManager.get_provider`: the primary
provider when its identifier is truthy and a key of the dict, else `None`. -/
def AIProviderManager.get_default (m : AIProviderManager) : Option Provider :=
  match m.primary_provider with
  | some k => if k != "" then m.providers.lookup k else none
  | none => none

/-- `AIProviderManager.get_provider`: the named provider when the identifier
is truthy and a key of the dict, else the primary provider when truthy and a
key of the dict, else `None`. -/
def AIProviderManager.get_provider (m : AIProviderManager) (provider_id : Option String) :
    Option Provider :=
  match provider_id with
  | some k =>
    if k != "" then
      match m.providers.lookup k with
      | some p => some p
      | none => m.get_default
    else m.get_default
  | none => m.get_default

/-- The failure `AIProviderManager.generate_response` returns when no
provider resolves. -/
def noProviderResponse : AIResponse :=
  { success := false, text := JsonVal.str "",
    error := some "No AI provider configured. Please set up at least one AI API key.",
    provider := some "None" }

/-- `AIProviderManager.generate_response`: resolve via `get_provider`, fail
without any call when nothing resolves, else delegate to the provider. -/
def AIProviderManager.generate_response (m : AIProviderManager) (prompt : String)
    (provider_id : Option String) : AIResponse :=
  match m.get_provider provider_id with
  | none => noProviderResponse
  | some p => p.generate prompt

/-- `generate_response` instrumented with the list of providers whose
`generate_response` (the generateText of the spec) was invoked, in order. -/
def AIProviderManager.generate_response_trace (m : AIProviderManager) (prompt : String)
    (provider_id : Option String) : AIResponse × List String :=
  match m.get_provider provider_id with
  | none => (noProviderResponse, [])
  | some p => (p.generate prompt, [p.name])

/-- The snapshot `AIProviderManager.get_status` returns. -/
structure AIStatus where
  configured_providers : List (String × String)
  available_providers : List String
  primary_provider : Option String
  total_configured : Nat

/-- `AIProviderManager.get_status`: one pass over the dict that appends each
configured provider (id and name) and increments the counter together. -/
def AIProviderManager.get_status (m : AIProviderManager) : AIStatus :=
  let conf := m.providers.filter (fun pr => pr.2.configured)
  { configured_providers := conf.map (fun pr => (pr.1, pr.2.name)),
    available_providers := ["google", "openai", "anthropic", "huggingface", "openrouter", "ollama"],
    primary_provider := m.primary_provider,
    total_configured := conf.length }

/-- The request body of `/api/chat`: `{message: string, provider?: string}`. -/
structure ChatMessage where
  message : String
  provider : Option String

/-- What the `/api/chat` handler produces: a JSON reply (with the `fallback`
key modelled as a boolean, `false` = absent) or a raised `HTTPException`.
The non-fallback branch puts `ai_response.text` into `reply` raw, so the
field is a `JsonVal`; the fallback branch builds a string via f-string
interpolation. -/
inductive ChatOutcome where
  | ok (reply : JsonVal) (provider : Option String) (fallback : Bool)
  | httpError (status : Nat) (detail : String)

/-- The career-focused prompt wrapped around the user message
(`main.py` lines 485-491). -/
def career_prompt (message : String) : String :=
  "You are 'Career Compass', a helpful AI career advisor for a global talent marketplace called LifeCompass AI. \n        \n        A user has asked the following question. Provide a helpful, encouraging, and actionable response focused on career development, job searching, skill building, or professional growth.\n        \n        User's question: " ++
    message ++
    "\n        \n        Please provide practical advice that can help them advance their career globally."

/-- The `/api/chat` handler `chat_with_ai` (`main.py` lines 473-525),
instrumented with the generateText trace.  A 503 is raised before anything
else when zero providers are configured; on a failed first attempt with a
truthy explicit identifier the handler unconditionally retries against the
default resolution, prefixing the fallback reply. -/
def chat_with_ai (m : AIProviderManager) (cm : ChatMessage) : ChatOutcome × List String :=
  if m.get_status.total_configured == 0 then
    (.httpError 503 "No AI providers configured. Please set up at least one AI API key (GOOGLE_API_KEY, OPENAI_API_KEY, ANTHROPIC_API_KEY, HUGGINGFACE_API_KEY, or run Ollama locally).",
     [])
  else
    let prompt := career_prompt cm.message
    let first := m.generate_response_trace prompt cm.provider
    if first.1.success then
      (.ok first.1.text first.1.provider false, first.2)
    else if pyTruthy cm.provider then
      let fb := m.generate_response_trace prompt none
      if fb.1.success then
        (.ok (JsonVal.str ("[Using fallback provider] " ++ pyStr fb.1.text)) fb.1.provider true,
         first.2 ++ fb.2)
      else
        (.httpError 503 ("AI service error: " ++ pyStrOpt first.1.error), first.2 ++ fb.2)
    else
      (.httpError 503 ("AI service error: " ++ pyStrOpt first.1.error), first.2)

/-! ## Helper lemmas -/

/-- A successful association-list lookup yields a member of the list. -/
theorem lookup_mem {α β : Type} [BEq α] [LawfulBEq α] :
    ∀ {ps : List (α × β)} {k : α} {p : β}, ps.lookup k = some p → (k, p) ∈ ps := by
  intro ps
  induction ps with
  | nil => intro k p h; simp [List.lookup] at h
  | cons a t ih =>
    intro k p h
    obtain ⟨a1, a2⟩ := a
    rw [List.lookup] at h
    by_cases hk : (k == a1) = true
    · simp only [hk] at h
      injection h with h1
      have hk2 : k = a1 := eq_of_beq hk
      subst hk2
      subst h1
      exact List.mem_cons_self _ _
    · rw [Bool.not_eq_true] at hk
      simp only [hk] at h
      exact List.mem_cons_of_mem _ (ih h)

/-- Whatever `get_default` resolves comes out of the `providers` dict. -/
theorem get_default_mem {m : AIProviderManager} {p : Provider}
    (h : m.get_default = some p) : ∃ k, (k, p) ∈ m.providers := by
  unfold AIProviderManager.get_default at h
  split at h
  next k heq =>
    split at h
    · exact ⟨k, lookup_mem h⟩
    · cases h
  next heq => cases h

/-- Whatever `get_provider` resolves comes out of the `providers` dict. -/
theorem get_provider_mem {m : AIProviderManager} {pid : Option String} {p : Provider}
    (h : m.get_provider pid = some p) : ∃ k, (k, p) ∈ m.providers := by
  cases pid with
  | none => exact get_default_mem h
  | some k =>
    have h2 : (if (k != "") = true then
        (match m.providers.lookup k with
         | some q => some q
         | none => m.get_default)
      else m.get_default) = some p := h
    split at h2
    · split at h2
      next q hq =>
        injection h2 with h1
        subst h1
        exact ⟨k, lookup_mem hq⟩
      next hq => exact get_default_mem h2
    · exact get_default_mem h2

/-- `n ≠ 0` turned into the boolean test the handler performs. -/
theorem beq_zero_false_of_ne {n : Nat} (h : n ≠ 0) : (n == 0) = false := by
  cases hb : (n == 0) with
  | false => rfl
  | true => simp at hb; exact absurd hb h

/-- The non-empty fallback tag makes the prefixed reply differ from the raw
text. -/
theorem fallback_tag_append_ne (t : String) : "[Using fallback provider] " ++ t ≠ t := by
  intro h
  have hl := congrArg String.length h
  rw [String.length_append] at hl
  have h26 : ("[Using fallback provider] " : String).length = 26 := rfl
  rw [h26] at hl
  omega

/-- The fallback reply — a string built from the tag and the stringified
text — is never the text value itself, whatever JSON value that is. -/
theorem fallback_tag_jsonval_ne (v : JsonVal) :
    JsonVal.str ("[Using fallback provider] " ++ pyStr v) ≠ v := by
  intro h
  cases v with
  | str s => injection h with h1; exact fallback_tag_append_ne s h1
  | num n => exact JsonVal.noConfusion h
  | bool b => exact JsonVal.noConfusion h
  | null => exact JsonVal.noConfusion h
  | arr xs => exact JsonVal.noConfusion h
  | obj fs => exact JsonVal.noConfusion h

/-- The invariant behind several claims: a failed `AIResponse` carries an
error message.  (The `text` field of `AIResponse` is a required field of the
dataclass, so it is always set — but its value can be the `None` a backend
sent as a null text leaf, see the C7 counterexample.) -/
def AIResponse.wellFormed (r : AIResponse) : Prop :=
  r.success = false → r.error.isSome = true

theorem failResp_wellFormed (e n : String) : (failResp e n).wellFormed :=
  fun _ => rfl

theorem success_wellFormed {r : AIResponse} (h : r.success = true) : r.wellFormed := by
  intro hf
  rw [h] at hf
  cases hf

/-! ## Claim theorems -/

/-- C8: for every registry state, the snapshot returned by `get_status` has
its `total_configured` count equal to the length of its
`configured_providers` list. -/
theorem c8_status_count_matches_list (m : AIProviderManager) :
    m.get_status.total_configured = m.get_status.configured_providers.length := by
  unfold AIProviderManager.get_status
  simp [List.length_map]

/-- C9: when the Ollama reachability probe raises (local server unreachable,
network failure, timeout), `is_configured` returns `false`; being a total
function of the probe outcome, it cannot propagate the exception. -/
theorem c9_ollama_unreachable_not_configured (e : String) :
    ollama_is_configured (RequestOutcome.raise e) = false := rfl

/-- C4: an explicit identifier that is not a key of the `providers` dict
makes `get_provider` resolve exactly what the default resolution yields, and
`generate_response` (here the instrumented variant, which also shows the
same adapters are invoked) proceeds identically — no unknown-provider
error is produced. -/
theorem c4_unknown_identifier_uses_default (m : AIProviderManager) (prompt s : String)
    (h : m.providers.lookup s = none) :
    m.get_provider (some s) = m.get_provider none ∧
    m.generate_response_trace prompt (some s) = m.generate_response_trace prompt none := by
  have hg : m.get_provider (some s) = m.get_provider none := by
    show (if (s != "") = true then
        (match m.providers.lookup s with
         | some p => some p
         | none => m.get_default)
      else m.get_default) = m.get_default
    by_cases hs : (s != "") = true
    · rw [if_pos hs, h]
    · rw [if_neg hs]
  refine ⟨hg, ?_⟩
  unfold AIProviderManager.generate_response_trace
  rw [hg]

/-- Fixture: a configured provider that always succeeds. -/
def provA : Provider :=
  ⟨"A", true, fun _ =>
    { success := true, text := JsonVal.str "hello from A", provider := some "A" }⟩

/-- Fixture: a one-entry registry whose default is that provider. -/
def mgrC4 : AIProviderManager := ⟨[("a", provA)], some "a"⟩

/-- Witness for C4 at a concrete registry and a never-registered id. -/
theorem c4_witness :
    mgrC4.providers.lookup "zzz" = none ∧
    (mgrC4.get_provider (some "zzz") = mgrC4.get_provider none ∧
     mgrC4.generate_response_trace "hi" (some "zzz") =
       mgrC4.generate_response_trace "hi" none) :=
  ⟨rfl, c4_unknown_identifier_uses_default mgrC4 "hi" "zzz" rfl⟩

/-- C7 (amended): every result produced by one of the six adapters — over
all credentials, prompts and request outcomes — and by the router
(`AIProviderManager.generate_response`, given adapters with the same
property) satisfies: on failure the error message is present.  The `text`
field, being a required field of the dataclass, is always set, but on
success its value is not necessarily non-absent: a null text leaf in a 200
payload is passed through as `None` (see the counterexample). -/
theorem c7_results_wellformed :
    (∀ clientOk call, (gemini_generate_response clientOk call).wellFormed) ∧
    (∀ api_key name out, (openai_generate_response api_key name out).wellFormed) ∧
    (∀ api_key name out, (anthropic_generate_response api_key name out).wellFormed) ∧
    (∀ api_key name prompt out,
      (huggingface_generate_response api_key name prompt out).wellFormed) ∧
    (∀ api_key name out, (openrouter_generate_response api_key name out).wellFormed) ∧
    (∀ name out, (ollama_generate_response name out).wellFormed) ∧
    (∀ (m : AIProviderManager) (prompt : String) (pid : Option String),
      (∀ pr ∈ m.providers, ∀ q, (pr.2.generate q).wellFormed) →
      (m.generate_response prompt pid).wellFormed) := by
  refine ⟨?_, ?_, ?_, ?_, ?_, ?_, ?_⟩
  · intro clientOk call
    unfold gemini_generate_response
    repeat' split
    all_goals first
      | exact success_wellFormed rfl
      | exact failResp_wellFormed _ _
  · intro api_key name out
    unfold openai_generate_response
    repeat' split
    all_goals first
      | exact success_wellFormed rfl
      | exact failResp_wellFormed _ _
  · intro api_key name out
    unfold anthropic_generate_response
    repeat' split
    all_goals first
      | exact success_wellFormed rfl
      | exact failResp_wellFormed _ _
  · intro api_key name prompt out
    unfold huggingface_generate_response
    repeat' split
    all_goals first
      | exact success_wellFormed rfl
      | exact failResp_wellFormed _ _
  · intro api_key name out
    unfold openrouter_generate_response
    repeat' split
    all_goals first
      | exact success_wellFormed rfl
      | exact failResp_wellFormed _ _
  · intro name out
    unfold ollama_generate_response
    repeat' split
    all_goals first
      | exact success_wellFormed rfl
      | exact failResp_wellFormed _ _
  · intro m prompt pid hall
    unfold AIProviderManager.generate_response
    cases hg : m.get_provider pid with
    | none =>
      intro _
      rfl
    | some p =>
      obtain ⟨k, hk⟩ := get_provider_mem hg
      exact hall (k, p) hk prompt

/-- Fixture: a 200 outcome whose `choices[0].message.content` is JSON
`null`. -/
def outNullContent : RequestOutcome :=
  RequestOutcome.resp ⟨200, "body",
    Except.ok (JsonVal.obj [("choices", JsonVal.arr
      [JsonVal.obj [("message", JsonVal.obj [("content", JsonVal.null)])]])])⟩

/-- C7: counterexample.  The OpenAI adapter, on a 200 whose content leaf is
`null`, returns `success=True` with `text=None` — a successful
`GenerationResult` whose text field is absent in the `None` sense, refuting
"if success is true then the text field is non-absent". -/
theorem c7_counterexample :
    (openai_generate_response "sk-test" "OpenAI (gpt-3.5-turbo)" outNullContent).success
        = true ∧
    (openai_generate_response "sk-test" "OpenAI (gpt-3.5-turbo)" outNullContent).text
        = JsonVal.null :=
  ⟨by decide, rfl⟩

/-- Fixture: a configured provider that always fails (with a message). -/
def provFail : Provider := ⟨"F", true, fun _ => failResp "boom" "F"⟩

/-- Fixture: a one-entry registry around the failing provider. -/
def mgrC7 : AIProviderManager := ⟨[("f", provFail)], some "f"⟩

/-- Witness for C7: the router clause applied at a concrete registry whose
adapter fails, all hypotheses discharged, yielding a concrete failed result
that carries its error message. -/
theorem c7_witness :
    (mgrC7.generate_response "hi" none).success = false ∧
    (mgrC7.generate_response "hi" none).error.isSome = true :=
  ⟨rfl,
    c7_results_wellformed.2.2.2.2.2.2 mgrC7 "hi" none
      (fun pr hpr q => by
        simp [mgrC7] at hpr
        subst hpr
        exact failResp_wellFormed _ _)
      rfl⟩

/-- A Gemini client call the adapter must map to a failure: the library call
raised. -/
def gemini_call_bad : Except String String → Bool
  | .error _ => true
  | .ok _ => false

/-- A request outcome the OpenAI adapter must map to a failure: a raised
exception (network failure, timeout), a non-200 status, or a 200 whose
payload cannot be decoded or whose `choices[0].message.content` subscript
chain raises (malformed). -/
def openai_outcome_bad (out : RequestOutcome) : Bool :=
  match out with
  | .raise _ => true
  | .resp r =>
    if r.status_code == 200 then
      match r.jsonBody with
      | .error _ => true
      | .ok j => (extract_chat_content j).isNone
    else true

/-- A request outcome the Anthropic adapter must map to a failure: as for
OpenAI, with the `content[0].text` subscript chain. -/
def anthropic_outcome_bad (out : RequestOutcome) : Bool :=
  match out with
  | .raise _ => true
  | .resp r =>
    if r.status_code == 200 then
      match r.jsonBody with
      | .error _ => true
      | .ok j => (extract_anthropic_content j).isNone
    else true

/-- A request outcome the Hugging Face adapter must map to a failure: a
raised exception, a non-200 status, or a 200 whose payload is undecodable,
not a non-empty array, has a non-object head, or carries a non-string
`generated_text` (making `startswith` raise). -/
def huggingface_outcome_bad (out : RequestOutcome) : Bool :=
  match out with
  | .raise _ => true
  | .resp r =>
    if r.status_code == 200 then
      match r.jsonBody with
      | .error _ => true
      | .ok (.arr (x :: _)) =>
        match x with
        | .obj fs =>
          match (fs.lookup "generated_text").getD (JsonVal.str "") with
          | .str _ => false
          | _ => true
        | _ => true
      | .ok _ => true
    else true

/-- A request outcome the OpenRouter adapter must map to a failure: a raised
exception, a non-200 status, or a 200 whose payload is undecodable, fails
the `choices`-present-and-non-empty guard, or whose `message.content`
extraction raises. -/
def openrouter_outcome_bad (out : RequestOutcome) : Bool :=
  match out with
  | .raise _ => true
  | .resp r =>
    if r.status_code == 200 then
      match r.jsonBody with
      | .error _ => true
      | .ok j =>
        match j.getField "choices" with
        | some (.arr (_ :: _)) => (extract_chat_content j).isNone
        | _ => true
    else true

/-- A request outcome the Ollama adapter must map to a failure: a raised
exception, a non-200 status, or a 200 whose payload is undecodable or not a
JSON object (malformed). -/
def ollama_outcome_bad (out : RequestOutcome) : Bool :=
  match out with
  | .raise _ => true
  | .resp r =>
    if r.status_code == 200 then
      match r.jsonBody with
      | .error _ => true
      | .ok (.obj _) => false
      | .ok _ => true
    else true

/-- C6: every concrete adapter always returns an `AIResponse` — each
embedding is a total function of its credentials and request outcome, so no
exception crosses the adapter boundary — and every backend-specific error
outcome (non-200 status, network failure or timeout, malformed payload: an
undecodable body, a missing or ill-typed field path, a shape failing the
adapter's guard) is mapped to a result with `success = false` carrying an
error message. -/
theorem c6_adapter_error_mapping (api_key name prompt : String) (clientOk : Bool)
    (callG : Except String String) (outO outA outH outR outL : RequestOutcome) :
    (gemini_call_bad callG = true →
      (gemini_generate_response clientOk callG).success = false ∧
      (gemini_generate_response clientOk callG).error.isSome = true) ∧
    (openai_outcome_bad outO = true →
      (openai_generate_response api_key name outO).success = false ∧
      (openai_generate_response api_key name outO).error.isSome = true) ∧
    (anthropic_outcome_bad outA = true →
      (anthropic_generate_response api_key name outA).success = false ∧
      (anthropic_generate_response api_key name outA).error.isSome = true) ∧
    (huggingface_outcome_bad outH = true →
      (huggingface_generate_response api_key name prompt outH).success = false ∧
      (huggingface_generate_response api_key name prompt outH).error.isSome = true) ∧
    (openrouter_outcome_bad outR = true →
      (openrouter_generate_response api_key name outR).success = false ∧
      (openrouter_generate_response api_key name outR).error.isSome = true) ∧
    (ollama_outcome_bad outL = true →
      (ollama_generate_response name outL).success = false ∧
      (ollama_generate_response name outL).error.isSome = true) := by
  refine ⟨?_, ?_, ?_, ?_, ?_, ?_⟩
  · intro hbad
    cases callG with
    | ok t => simp [gemini_call_bad] at hbad
    | error e =>
      unfold gemini_generate_response
      split
      · exact ⟨rfl, rfl⟩
      · exact ⟨rfl, rfl⟩
  · intro hbad
    cases outO with
    | raise e =>
      unfold openai_generate_response
      split
      · exact ⟨rfl, rfl⟩
      · exact ⟨rfl, rfl⟩
    | resp r =>
      by_cases h200 : (r.status_code == 200) = true
      · cases hj : r.jsonBody with
        | error e2 =>
          constructor <;> simp [openai_generate_response, h200, hj, failResp, apply_ite]
        | ok j =>
          cases hex : extract_chat_content j with
          | some t =>
            have hbad2 : openai_outcome_bad (RequestOutcome.resp r) = true := hbad
            simp [openai_outcome_bad, h200, hj, hex] at hbad2
          | none =>
            constructor <;>
              simp [openai_generate_response, h200, hj, hex, failResp, apply_ite]
      · constructor <;> simp [openai_generate_response, h200, failResp, apply_ite]
  · intro hbad
    cases outA with
    | raise e =>
      unfold anthropic_generate_response
      split
      · exact ⟨rfl, rfl⟩
      · exact ⟨rfl, rfl⟩
    | resp r =>
      by_cases h200 : (r.status_code == 200) = true
      · cases hj : r.jsonBody with
        | error e2 =>
          constructor <;> simp [anthropic_generate_response, h200, hj, failResp, apply_ite]
        | ok j =>
          cases hex : extract_anthropic_content j with
          | some t =>
            have hbad2 : anthropic_outcome_bad (RequestOutcome.resp r) = true := hbad
            simp [anthropic_outcome_bad, h200, hj, hex] at hbad2
          | none =>
            constructor <;>
              simp [anthropic_generate_response, h200, hj, hex, failResp, apply_ite]
      · constructor <;> simp [anthropic_generate_response, h200, failResp, apply_ite]
  · intro hbad
    cases outH with
    | raise e =>
      unfold huggingface_generate_response
      split
      · exact ⟨rfl, rfl⟩
      · exact ⟨rfl, rfl⟩
    | resp r =>
      by_cases h200 : (r.status_code == 200) = true
      · cases hj : r.jsonBody with
        | error e2 =>
          constructor <;> simp [huggingface_generate_response, h200, hj, failResp, apply_ite]
        | ok j =>
          cases j with
          | arr xs =>
            cases xs with
            | nil =>
              constructor <;>
                simp [huggingface_generate_response, h200, hj, failResp, apply_ite]
            | cons x xt =>
              cases x with
              | obj fs =>
                cases hv : (fs.lookup "generated_text").getD (JsonVal.str "") with
                | str s =>
                  have hbad2 : huggingface_outcome_bad (RequestOutcome.resp r) = true := hbad
                  simp [huggingface_outcome_bad, h200, hj, hv] at hbad2
                | num n =>
                  constructor <;>
                    simp [huggingface_generate_response, h200, hj, hv, failResp, apply_ite]
                | bool b =>
                  constructor <;>
                    simp [huggingface_generate_response, h200, hj, hv, failResp, apply_ite]
                | null =>
                  constructor <;>
                    simp [huggingface_generate_response, h200, hj, hv, failResp, apply_ite]
                | arr ys =>
                  constructor <;>
                    simp [huggingface_generate_response, h200, hj, hv, failResp, apply_ite]
                | obj gs =>
                  constructor <;>
                    simp [huggingface_generate_response, h200, hj, hv, failResp, apply_ite]
              | str s =>
                constructor <;>
                  simp [huggingface_generate_response, h200, hj, failResp, apply_ite]
              | num n =>
                constructor <;>
                  simp [huggingface_generate_response, h200, hj, failResp, apply_ite]
              | bool b =>
                constructor <;>
                  simp [huggingface_generate_response, h200, hj, failResp, apply_ite]
              | null =>
                constructor <;>
                  simp [huggingface_generate_response, h200, hj, failResp, apply_ite]
              | arr ys =>
                constructor <;>
                  simp [huggingface_generate_response, h200, hj, failResp, apply_ite]
          | str s =>
            constructor <;> simp [huggingface_generate_response, h200, hj, failResp, apply_ite]
          | num n =>
            constructor <;> simp [huggingface_generate_response, h200, hj, failResp, apply_ite]
          | bool b =>
            constructor <;> simp [huggingface_generate_response, h200, hj, failResp, apply_ite]
          | null =>
            constructor <;> simp [huggingface_generate_response, h200, hj, failResp, apply_ite]
          | obj fs =>
            constructor <;> simp [huggingface_generate_response, h200, hj, failResp, apply_ite]
      · constructor <;> simp [huggingface_generate_response, h200, failResp, apply_ite]
  · intro hbad
    cases outR with
    | raise e =>
      unfold openrouter_generate_response
      split
      · exact ⟨rfl, rfl⟩
      · exact ⟨rfl, rfl⟩
    | resp r =>
      by_cases h200 : (r.status_code == 200) = true
      · cases hj : r.jsonBody with
        | error e2 =>
          constructor <;> simp [openrouter_generate_response, h200, hj, failResp, apply_ite]
        | ok j =>
          cases hc : j.getField "choices" with
          | none =>
            constructor <;>
              simp [openrouter_generate_response, h200, hj, hc, failResp, apply_ite]
          | some v =>
            cases v with
            | arr ys =>
              cases ys with
              | nil =>
                constructor <;>
                  simp [openrouter_generate_response, h200, hj, hc, failResp, apply_ite]
              | cons y yt =>
                cases hex : extract_chat_content j with
                | some t =>
                  have hbad2 : openrouter_outcome_bad (RequestOutcome.resp r) = true := hbad
                  simp [openrouter_outcome_bad, h200, hj, hc, hex] at hbad2
                | none =>
                  constructor <;>
                    simp [openrouter_generate_response, h200, hj, hc, hex, failResp, apply_ite]
            | str s =>
              constructor <;>
                simp [openrouter_generate_response, h200, hj, hc, failResp, apply_ite]
            | num n =>
              constructor <;>
                simp [openrouter_generate_response, h200, hj, hc, failResp, apply_ite]
            | bool b =>
              constructor <;>
                simp [openrouter_generate_response, h200, hj, hc, failResp, apply_ite]
            | null =>
              constructor <;>
                simp [openrouter_generate_response, h200, hj, hc, failResp, apply_ite]
            | obj gs =>
              constructor <;>
                simp [openrouter_generate_response, h200, hj, hc, failResp, apply_ite]
      · constructor <;> simp [openrouter_generate_response, h200, failResp, apply_ite]
  · intro hbad
    cases outL with
    | raise e =>
      exact ⟨rfl, rfl⟩
    | resp r =>
      by_cases h200 : (r.status_code == 200) = true
      · cases hj : r.jsonBody with
        | error e2 =>
          constructor <;> simp [ollama_generate_response, h200, hj, failResp]
        | ok j =>
          cases j with
          | obj fs =>
            have hbad2 : ollama_outcome_bad (RequestOutcome.resp r) = true := hbad
            simp [ollama_outcome_bad, h200, hj] at hbad2
          | str s => constructor <;> simp [ollama_generate_response, h200, hj, failResp]
          | num n => constructor <;> simp [ollama_generate_response, h200, hj, failResp]
          | bool b => constructor <;> simp [ollama_generate_response, h200, hj, failResp]
          | null => constructor <;> simp [ollama_generate_response, h200, hj, failResp]
          | arr xs => constructor <;> simp [ollama_generate_response, h200, hj, failResp]
      · constructor <;> simp [ollama_generate_response, h200, failResp]

/-- Witness for C6 at concrete bad outcomes, one per adapter: a raised
client call (Gemini), a raised timeout (OpenAI), a 404 (Anthropic), a 200
with an empty-object body (Hugging Face, OpenRouter), and a 500 with an
undecodable body (Ollama). -/
theorem c6_witness :
    gemini_call_bad (Except.error "boom") = true ∧
    openai_outcome_bad (RequestOutcome.raise "timeout") = true ∧
    anthropic_outcome_bad (RequestOutcome.resp ⟨404, "nf", Except.error "e"⟩) = true ∧
    huggingface_outcome_bad (RequestOutcome.resp ⟨200, "x", Except.ok (JsonVal.obj [])⟩) = true ∧
    openrouter_outcome_bad (RequestOutcome.resp ⟨200, "x", Except.ok (JsonVal.obj [])⟩) = true ∧
    ollama_outcome_bad (RequestOutcome.resp ⟨500, "oops", Except.error "bad json"⟩) = true ∧
    ((gemini_generate_response true (Except.error "boom")).success = false ∧
      (gemini_generate_response true (Except.error "boom")).error.isSome = true) ∧
    ((openai_generate_response "sk" "OpenAI (gpt-3.5-turbo)"
        (RequestOutcome.raise "timeout")).success = false ∧
      (openai_generate_response "sk" "OpenAI (gpt-3.5-turbo)"
        (RequestOutcome.raise "timeout")).error.isSome = true) ∧
    ((anthropic_generate_response "sk" "Anthropic (claude-3-sonnet-20240229)"
        (RequestOutcome.resp ⟨404, "nf", Except.error "e"⟩)).success = false ∧
      (anthropic_generate_response "sk" "Anthropic (claude-3-sonnet-20240229)"
        (RequestOutcome.resp ⟨404, "nf", Except.error "e"⟩)).error.isSome = true) ∧
    ((huggingface_generate_response "sk" "Hugging Face (microsoft/DialoGPT-medium)" "hi"
        (RequestOutcome.resp ⟨200, "x", Except.ok (JsonVal.obj [])⟩)).success = false ∧
      (huggingface_generate_response "sk" "Hugging Face (microsoft/DialoGPT-medium)" "hi"
        (RequestOutcome.resp ⟨200, "x", Except.ok (JsonVal.obj [])⟩)).error.isSome = true) ∧
    ((openrouter_generate_response "sk" "OpenRouter (google/gemini-flash-1.5)"
        (RequestOutcome.resp ⟨200, "x", Except.ok (JsonVal.obj [])⟩)).success = false ∧
      (openrouter_generate_response "sk" "OpenRouter (google/gemini-flash-1.5)"
        (RequestOutcome.resp ⟨200, "x", Except.ok (JsonVal.obj [])⟩)).error.isSome = true) ∧
    ((ollama_generate_response "Ollama (llama2)"
        (RequestOutcome.resp ⟨500, "oops", Except.error "bad json"⟩)).success = false ∧
      (ollama_generate_response "Ollama (llama2)"
        (RequestOutcome.resp ⟨500, "oops", Except.error "bad json"⟩)).error.isSome = true) := by
  have h := c6_adapter_error_mapping "sk" "any" "hi" true (Except.error "boom")
    (RequestOutcome.raise "timeout") (RequestOutcome.resp ⟨404, "nf", Except.error "e"⟩)
    (RequestOutcome.resp ⟨200, "x", Except.ok (JsonVal.obj [])⟩)
    (RequestOutcome.resp ⟨200, "x", Except.ok (JsonVal.obj [])⟩)
    (RequestOutcome.resp ⟨500, "oops", Except.error "bad json"⟩)
  refine ⟨rfl, rfl, rfl, rfl, rfl, rfl, h.1 rfl, ?_, ?_, ?_, ?_, ?_⟩
  · exact (c6_adapter_error_mapping "sk" "OpenAI (gpt-3.5-turbo)" "hi" true
      (Except.error "boom") (RequestOutcome.raise "timeout")
      (RequestOutcome.resp ⟨404, "nf", Except.error "e"⟩)
      (RequestOutcome.resp ⟨200, "x", Except.ok (JsonVal.obj [])⟩)
      (RequestOutcome.resp ⟨200, "x", Except.ok (JsonVal.obj [])⟩)
      (RequestOutcome.resp ⟨500, "oops", Except.error "bad json"⟩)).2.1 rfl
  · exact (c6_adapter_error_mapping "sk" "Anthropic (claude-3-sonnet-20240229)" "hi" true
      (Except.error "boom") (RequestOutcome.raise "timeout")
      (RequestOutcome.resp ⟨404, "nf", Except.error "e"⟩)
      (RequestOutcome.resp ⟨200, "x", Except.ok (JsonVal.obj [])⟩)
      (RequestOutcome.resp ⟨200, "x", Except.ok (JsonVal.obj [])⟩)
      (RequestOutcome.resp ⟨500, "oops", Except.error "bad json"⟩)).2.2.1 rfl
  · exact (c6_adapter_error_mapping "sk" "Hugging Face (microsoft/DialoGPT-medium)" "hi" true
      (Except.error "boom") (RequestOutcome.raise "timeout")
      (RequestOutcome.resp ⟨404, "nf", Except.error "e"⟩)
      (RequestOutcome.resp ⟨200, "x", Except.ok (JsonVal.obj [])⟩)
      (RequestOutcome.resp ⟨200, "x", Except.ok (JsonVal.obj [])⟩)
      (RequestOutcome.resp ⟨500, "oops", Except.error "bad json"⟩)).2.2.2.1 rfl
  · exact (c6_adapter_error_mapping "sk" "OpenRouter (google/gemini-flash-1.5)" "hi" true
      (Except.error "boom") (RequestOutcome.raise "timeout")
      (RequestOutcome.resp ⟨404, "nf", Except.error "e"⟩)
      (RequestOutcome.resp ⟨200, "x", Except.ok (JsonVal.obj [])⟩)
      (RequestOutcome.resp ⟨200, "x", Except.ok (JsonVal.obj [])⟩)
      (RequestOutcome.resp ⟨500, "oops", Except.error "bad json"⟩)).2.2.2.2.1 rfl
  · exact (c6_adapter_error_mapping "sk" "Ollama (llama2)" "hi" true
      (Except.error "boom") (RequestOutcome.raise "timeout")
      (RequestOutcome.resp ⟨404, "nf", Except.error "e"⟩)
      (RequestOutcome.resp ⟨200, "x", Except.ok (JsonVal.obj [])⟩)
      (RequestOutcome.resp ⟨200, "x", Except.ok (JsonVal.obj [])⟩)
      (RequestOutcome.resp ⟨500, "oops", Except.error "bad json"⟩)).2.2.2.2.2 rfl

/-- Fixture: a world where every provider backend is unreachable and the
Gemini client library fails to initialize. -/
def netQuiet : NetOracle :=
  { geminiInitOk := false,
    geminiCall := fun _ => Except.error "unavailable",
    openaiCall := fun _ => RequestOutcome.raise "unavailable",
    anthropicCall := fun _ => RequestOutcome.raise "unavailable",
    huggingfaceCall := fun _ => RequestOutcome.raise "unavailable",
    openrouterCall := fun _ => RequestOutcome.raise "unavailable",
    ollamaCall := fun _ => RequestOutcome.raise "unavailable",
    ollamaProbe := RequestOutcome.raise "connection refused" }

/-- Fixture: an environment with only the explicit default override set,
naming an adapter for which no credential exists. -/
def envOverrideOnly : Env :=
  ⟨fun k => if k == "PRIMARY_AI_PROVIDER" then some "openai" else none⟩

/-- C2: counterexample.  With `PRIMARY_AI_PROVIDER=openai` set and no
adapter instantiable, initialization leaves the default identifier set to
`"openai"` while the adapter mapping is empty, so the default refers to no
key of the mapping. -/
theorem c2_counterexample :
    (AIProviderManager.fromEnv envOverrideOnly netQuiet).primary_provider = some "openai" ∧
    (AIProviderManager.fromEnv envOverrideOnly netQuiet).providers = [] :=
  ⟨rfl, rfl⟩

/-- C2 (amended): when no explicit override is present, a set default
identifier always names a key of the adapter mapping (it is the first
configured provider found in the mapping); an explicit override, by
contrast, is adopted verbatim and may name an adapter that was never
instantiated. -/
theorem c2_default_in_mapping_without_override (env : Env) (net : NetOracle) (pid : String)
    (hov : env.getenv "PRIMARY_AI_PROVIDER" = none)
    (hset : (AIProviderManager.fromEnv env net).primary_provider = some pid) :
    pid ∈ (AIProviderManager.fromEnv env net).providers.map Prod.fst := by
  have hset2 : get_first_available_provider (load_providers env net) = some pid := by
    have h2 : (match env.getenv "PRIMARY_AI_PROVIDER" with
        | some v => some v
        | none => get_first_available_provider (load_providers env net)) = some pid := hset
    rw [hov] at h2
    exact h2
  have hgoal : pid ∈ (load_providers env net).map Prod.fst := by
    unfold get_first_available_provider at hset2
    cases hf : (load_providers env net).find? (fun pr => pr.2.configured) with
    | none => rw [hf] at hset2; cases hset2
    | some pr =>
      rw [hf] at hset2
      injection hset2 with h1
      exact List.mem_map.mpr ⟨pr, List.mem_of_find?_eq_some hf, h1⟩
  exact hgoal

/-- Fixture: an environment with exactly one credential (OpenAI) and no
override. -/
def envOneKey : Env :=
  ⟨fun k => if k == "OPENAI_API_KEY" then some "sk-test" else none⟩

/-- Witness for C2 (amended): with one configured adapter and no override,
the computed default names the key `"openai"` of the mapping. -/
theorem c2_witness :
    envOneKey.getenv "PRIMARY_AI_PROVIDER" = none ∧
    (AIProviderManager.fromEnv envOneKey netQuiet).primary_provider = some "openai" ∧
    "openai" ∈ (AIProviderManager.fromEnv envOneKey netQuiet).providers.map Prod.fst :=
  ⟨rfl, by decide,
    c2_default_in_mapping_without_override envOneKey netQuiet "openai" rfl (by decide)⟩

/-- Fixture: an environment where the Google credential is present but
whitespace-only (instantiated yet unconfigured adapter) and the override
names it. -/
def envWhitespaceKey : Env :=
  ⟨fun k =>
    if k == "GOOGLE_API_KEY" then some " "
    else if k == "PRIMARY_AI_PROVIDER" then some "google" else none⟩

/-- C3: counterexample.  A whitespace `GOOGLE_API_KEY` instantiates the
Gemini adapter without configuring it, and `PRIMARY_AI_PROVIDER=google`
makes it the default: the registry has zero configured adapters, yet
`generate_response` does invoke that adapter's generateText (the call trace
is non-empty) — the result is still a failure carrying an error message. -/
theorem c3_counterexample :
    (AIProviderManager.fromEnv envWhitespaceKey netQuiet).get_status.total_configured = 0 ∧
    ((AIProviderManager.fromEnv envWhitespaceKey netQuiet).generate_response_trace
        "hi" none).2 = ["Google Gemini"] ∧
    ((AIProviderManager.fromEnv envWhitespaceKey netQuiet).generate_response_trace
        "hi" none).1.success = false ∧
    ((AIProviderManager.fromEnv envWhitespaceKey netQuiet).generate_response_trace
        "hi" none).1.error = some "Google Gemini not properly configured" :=
  ⟨by decide, by decide, by decide, by decide⟩

/-- C3 (amended): when the registry's adapter mapping is empty, for every
prompt and identifier `generate_response` returns the descriptive
no-provider failure and invokes no generateText at all (empty call trace).
(With a non-empty mapping of only unconfigured adapters the default can
still name one, and its generateText is then invoked — see the
counterexample.) -/
theorem c3_empty_registry_no_call (m : AIProviderManager) (prompt : String)
    (pid : Option String) (h : m.providers = []) :
    m.generate_response_trace prompt pid = (noProviderResponse, []) := by
  obtain ⟨ps, prim⟩ := m
  have h2 : ps = [] := h
  subst h2
  cases pid <;> cases prim <;>
    (first
      | rfl
      | simp [AIProviderManager.generate_response_trace, AIProviderManager.get_provider,
          AIProviderManager.get_default, List.lookup_nil, ite_self])

/-- Fixture: an empty registry that still carries a (stale) default id. -/
def mgrEmpty : AIProviderManager := ⟨[], some "google"⟩

/-- Witness for C3 (amended) at a concrete empty registry. -/
theorem c3_witness :
    mgrEmpty.providers = [] ∧
    mgrEmpty.generate_response_trace "hi" (some "openai") = (noProviderResponse, []) :=
  ⟨rfl, c3_empty_registry_no_call mgrEmpty "hi" (some "openai") rfl⟩

/-- The `/api/chat` handler on the fallback path: a truthy explicit
identifier resolved to `a`, whose attempt failed, and the default
resolution yields `b`; the handler then unconditionally performs the second
attempt against `b`, so the generateText trace is `[a.name, b.name]`. -/
theorem chat_with_ai_fallback_path (m : AIProviderManager) (cm : ChatMessage) (a b : Provider)
    (hconf : (m.get_status.total_configured == 0) = false)
    (hex : pyTruthy cm.provider = true)
    (hres : m.get_provider cm.provider = some a)
    (hafail : (a.generate (career_prompt cm.message)).success = false)
    (hdef : m.get_provider none = some b) :
    chat_with_ai m cm =
      (if (b.generate (career_prompt cm.message)).success then
        ChatOutcome.ok
          (JsonVal.str
            ("[Using fallback provider] " ++ pyStr (b.generate (career_prompt cm.message)).text))
          (b.generate (career_prompt cm.message)).provider true
       else
        ChatOutcome.httpError 503
          ("AI service error: " ++ pyStrOpt (a.generate (career_prompt cm.message)).error),
       [a.name, b.name]) := by
  have hfirst : m.generate_response_trace (career_prompt cm.message) cm.provider
      = (a.generate (career_prompt cm.message), [a.name]) := by
    unfold AIProviderManager.generate_response_trace
    rw [hres]
  have hfb : m.generate_response_trace (career_prompt cm.message) none
      = (b.generate (career_prompt cm.message), [b.name]) := by
    unfold AIProviderManager.generate_response_trace
    rw [hdef]
  unfold chat_with_ai
  rw [hconf]
  rw [if_neg (by simp)]
  simp only [hfirst, hfb, hafail, hex, Bool.false_eq_true, if_false, if_true]
  split <;> simp

/-- Fixture: a world where the OpenAI backend deterministically answers
HTTP 500. -/
def net500 : NetOracle :=
  { netQuiet with
    openaiCall := fun _ => RequestOutcome.resp ⟨500, "server error", Except.error "no body"⟩ }

/-- Fixture: one configured OpenAI adapter that always fails; it is also the
computed default (no override set). -/
def mgrOpenAIOnly : AIProviderManager := AIProviderManager.fromEnv envOneKey net500

/-- C1: counterexample.  The explicitly requested adapter `openai` resolves
to the same adapter as the default resolution, its attempt fails — and the
handler still performs a second generateText attempt against that same
adapter (trace of length two), although the returned failure is the
original one. -/
theorem c1_counterexample :
    mgrOpenAIOnly.get_provider (some "openai") = mgrOpenAIOnly.get_provider none ∧
    (chat_with_ai mgrOpenAIOnly ⟨"hi", some "openai"⟩).2 =
      ["OpenAI (gpt-3.5-turbo)", "OpenAI (gpt-3.5-turbo)"] ∧
    (chat_with_ai mgrOpenAIOnly ⟨"hi", some "openai"⟩).1 =
      ChatOutcome.httpError 503 "AI service error: OpenAI API error: 500 - server error" :=
  ⟨rfl, by decide, rfl⟩

/-- C1 (amended): when the explicit identifier resolves to the very adapter
the default resolution yields and that adapter's generateText fails, the
handler returns the original failure — but it does make a second
generateText attempt against that same adapter: the fallback retry is
unconditional whenever an explicit identifier was supplied, never comparing
the default with the adapter just tried. -/
theorem c1_same_default_retried_original_failure (m : AIProviderManager) (cm : ChatMessage)
    (p : Provider)
    (hconf : m.get_status.total_configured ≠ 0)
    (hex : pyTruthy cm.provider = true)
    (hres : m.get_provider cm.provider = some p)
    (hdef : m.get_provider none = some p)
    (hfail : (p.generate (career_prompt cm.message)).success = false) :
    chat_with_ai m cm =
      (ChatOutcome.httpError 503
        ("AI service error: " ++ pyStrOpt (p.generate (career_prompt cm.message)).error),
       [p.name, p.name]) := by
  rw [chat_with_ai_fallback_path m cm p p (beq_zero_false_of_ne hconf) hex hres hfail hdef]
  simp [hfail]

/-- Witness for C1 (amended) at the concrete one-adapter registry. -/
theorem c1_witness :
    mgrOpenAIOnly.get_status.total_configured ≠ 0 ∧
    chat_with_ai mgrOpenAIOnly ⟨"hi", some "openai"⟩ =
      (ChatOutcome.httpError 503
        ("AI service error: " ++ pyStrOpt
          ((openaiProvider "sk-test" "gpt-3.5-turbo" net500).generate (career_prompt "hi")).error),
       ["OpenAI (gpt-3.5-turbo)", "OpenAI (gpt-3.5-turbo)"]) :=
  ⟨by decide,
    c1_same_default_retried_original_failure mgrOpenAIOnly ⟨"hi", some "openai"⟩
      (openaiProvider "sk-test" "gpt-3.5-turbo" net500) (by decide) rfl rfl rfl (by decide)⟩

/-- C5: when the explicitly requested adapter `a` fails and the
default-resolved adapter `b` succeeds, the handler returns success with the
fallback flag set and `b`'s provider identifier, after a trace of exactly
one attempt on each adapter. -/
theorem c5_fallback_success_marks_provider (m : AIProviderManager) (cm : ChatMessage)
    (a b : Provider) (bId : String)
    (hconf : m.get_status.total_configured ≠ 0)
    (hex : pyTruthy cm.provider = true)
    (hres : m.get_provider cm.provider = some a)
    (hafail : (a.generate (career_prompt cm.message)).success = false)
    (hdef : m.get_provider none = some b)
    (hbok : (b.generate (career_prompt cm.message)).success = true)
    (hbid : (b.generate (career_prompt cm.message)).provider = some bId) :
    chat_with_ai m cm =
      (ChatOutcome.ok
        (JsonVal.str
          ("[Using fallback provider] " ++ pyStr (b.generate (career_prompt cm.message)).text))
        (some bId) true,
       [a.name, b.name]) := by
  rw [chat_with_ai_fallback_path m cm a b (beq_zero_false_of_ne hconf) hex hres hafail hdef]
  simp [hbok, hbid]

/-- Fixture: OpenAI credential plus Anthropic credential with the override
designating Anthropic as default. -/
def envTwoKeys : Env :=
  ⟨fun k =>
    if k == "OPENAI_API_KEY" then some "sk-1"
    else if k == "ANTHROPIC_API_KEY" then some "sk-2"
    else if k == "PRIMARY_AI_PROVIDER" then some "anthropic" else none⟩

/-- Fixture: a world where OpenAI times out while Anthropic answers 200 with
a well-formed body saying "hello". -/
def netFallbackDemo : NetOracle :=
  { netQuiet with
    openaiCall := fun _ => RequestOutcome.raise "timeout",
    anthropicCall := fun _ => RequestOutcome.resp
      ⟨200, "body",
        Except.ok (JsonVal.obj
          [("content", JsonVal.arr [JsonVal.obj [("text", JsonVal.str "hello")]])])⟩ }

/-- Fixture: the two-adapter registry built from those. -/
def mgrTwo : AIProviderManager := AIProviderManager.fromEnv envTwoKeys netFallbackDemo

/-- Witness for C5: requesting `openai` explicitly, its attempt times out,
the Anthropic default succeeds, and the reply is marked as fallback under
Anthropic's identifier. -/
theorem c5_witness :
    mgrTwo.get_status.total_configured ≠ 0 ∧
    chat_with_ai mgrTwo ⟨"hi", some "openai"⟩ =
      (ChatOutcome.ok (JsonVal.str ("[Using fallback provider] " ++ "hello"))
        (some "Anthropic (claude-3-sonnet-20240229)") true,
       ["OpenAI (gpt-3.5-turbo)", "Anthropic (claude-3-sonnet-20240229)"]) :=
  ⟨by decide,
    c5_fallback_success_marks_provider mgrTwo ⟨"hi", some "openai"⟩
      (openaiProvider "sk-1" "gpt-3.5-turbo" netFallbackDemo)
      (anthropicProvider "sk-2" "claude-3-sonnet-20240229" netFallbackDemo)
      "Anthropic (claude-3-sonnet-20240229)"
      (by decide) rfl rfl (by decide) rfl (by decide) (by decide)⟩

/-- C10: on the fallback path the HTTP reply field is the fallback adapter's
text prefixed with the literal tag `"[Using fallback provider] "`, and is
therefore never that text verbatim. -/
theorem c10_fallback_reply_is_prefixed (m : AIProviderManager) (cm : ChatMessage)
    (a b : Provider)
    (hconf : m.get_status.total_configured ≠ 0)
    (hex : pyTruthy cm.provider = true)
    (hres : m.get_provider cm.provider = some a)
    (hafail : (a.generate (career_prompt cm.message)).success = false)
    (hdef : m.get_provider none = some b)
    (hbok : (b.generate (career_prompt cm.message)).success = true) :
    (chat_with_ai m cm).1 =
      ChatOutcome.ok
        (JsonVal.str
          ("[Using fallback provider] " ++ pyStr (b.generate (career_prompt cm.message)).text))
        (b.generate (career_prompt cm.message)).provider true ∧
    JsonVal.str
        ("[Using fallback provider] " ++ pyStr (b.generate (career_prompt cm.message)).text) ≠
      (b.generate (career_prompt cm.message)).text := by
  constructor
  · rw [chat_with_ai_fallback_path m cm a b (beq_zero_false_of_ne hconf) hex hres hafail hdef]
    simp [hbok]
  · exact fallback_tag_jsonval_ne _

/-- Witness for C10 at the same concrete two-adapter registry. -/
theorem c10_witness :
    (chat_with_ai mgrTwo ⟨"hey", some "openai"⟩).1 =
      ChatOutcome.ok (JsonVal.str ("[Using fallback provider] " ++ "hello"))
        (some "Anthropic (claude-3-sonnet-20240229)") true ∧
    JsonVal.str ("[Using fallback provider] " ++ "hello") ≠ JsonVal.str "hello" :=
  c10_fallback_reply_is_prefixed mgrTwo ⟨"hey", some "openai"⟩
    (openaiProvider "sk-1" "gpt-3.5-turbo" netFallbackDemo)
    (anthropicProvider "sk-2" "claude-3-sonnet-20240229" netFallbackDemo)
    (by decide) rfl rfl (by decide) rfl (by decide)

end LifeCompass
